import Mathlib

/-!
Verification of the message-handling core of a Telegram chat-bot
(`bot.py`): the Gemini HTTP client wrapper `get_gemini_response`, the
SQLite-backed request log (`save_user_request`, `get_users_count`), and
the two aiogram handlers (`handle_commands`, `handle_message`).

The Python code is shallowly embedded: JSON/Python values are an
inductive `Json`; Python exceptions are an explicit `Except PyErr`
channel, with every `try/except Exception` translated as a total catch;
the behaviour of the external world (HTTP outcome, storage success,
transport sends) is passed in as explicit parameters, and the handlers
are modelled as functions from an inbound message and those outcomes to
the list of observable effects they perform, in order.
-/

set_option autoImplicit false

namespace GeminiBot

/-- A JSON value as produced by `response.json()`; also covers the Python
values flowing through the extraction chain in `get_gemini_response`. -/
inductive Json where
  | null
  | bool (b : Bool)
  | num (n : Int)
  | str (s : String)
  | arr (elems : List Json)
  | obj (fields : List (String × Json))

/-- Python exceptions that can arise in `get_gemini_response`'s `try`
block: attribute/index/key/type errors from the extraction chain, plus
the aiohttp/asyncio error classes for connection failure, timeout,
`raise_for_status`, and a body that cannot be parsed as JSON. -/
inductive PyErr where
  | attributeError
  | indexError
  | keyError
  | typeError
  | clientConnectionError
  | timeoutError
  | clientResponseError
  | contentTypeError
  deriving DecidableEq

/-- Python `x.get(key, default)`: on a dict, the stored value or the
default; on any non-dict value it raises `AttributeError`. -/
def Json.getD (j : Json) (key : String) (d : Json) : Except PyErr Json :=
  match j with
  | .obj fields => .ok ((fields.lookup key).getD d)
  | _ => .error .attributeError

/-- Python `x[0]`: first element of a list (IndexError when empty), first
character of a string (IndexError when empty), `KeyError` on a dict
(JSON object keys are strings, never the integer 0), `TypeError` on
anything unsubscriptable. -/
def Json.index0 : Json → Except PyErr Json
  | .arr [] => .error .indexError
  | .arr (x :: _) => .ok x
  | .str s =>
    match s.toList with
    | [] => .error .indexError
    | c :: _ => .ok (.str (String.mk [c]))
  | .obj _ => .error .keyError
  | _ => .error .typeError

/-- The body of one HTTP response: parsed JSON, or a body on which
`response.json()` raises. -/
inductive BodyResult where
  | json (j : Json)
  | malformed

/-- One behaviour of the external Gemini endpoint for a single call:
connection-level failure, timeout of the bounded 15s request, or an HTTP
response with a status code and a body. -/
inductive ApiOutcome where
  | connectionError
  | timeout
  | response (status : Nat) (body : BodyResult)

/-- The default string of the final `.get('text', ...)` in
`get_gemini_response` (bot.py line 100). -/
def noAnswerText : String := "Не удалось получить ответ"

/-- The canned string of `get_gemini_response`'s `except` clause
(bot.py line 103). -/
def apiErrorText : String := "Извините, произошла ошибка при обработке запроса. Пожалуйста, попробуйте позже."

/-- The request body built at bot.py line 93:
`{"contents": [{"parts": [{"text": message_text}]}]}`. -/
def geminiRequestBody (message_text : String) : Json :=
  .obj [("contents", .arr [.obj [("parts", .arr [.obj [("text", .str message_text)]])]])]

/-- Steps `result.get('candidates', [{}])[0].get('content', {}).get('parts', [{}])[0]`
of the extraction chain at bot.py line 100, with each Python operation's
exception surfaced in the `Except` channel. -/
def partsFirst (result : Json) : Except PyErr Json :=
  match result.getD "candidates" (.arr [.obj []]) with
  | .error e => .error e
  | .ok cands =>
    match cands.index0 with
    | .error e => .error e
    | .ok c0 =>
      match c0.getD "content" (.obj []) with
      | .error e => .error e
      | .ok content =>
        match content.getD "parts" (.arr [.obj []]) with
        | .error e => .error e
        | .ok parts => parts.index0

/-- The full extraction chain at bot.py line 100, ending in
`.get('text', "Не удалось получить ответ")`. -/
def extractText (result : Json) : Except PyErr Json :=
  match partsFirst result with
  | .error e => .error e
  | .ok p0 => p0.getD "text" (.str noAnswerText)

/-- The `try` block of `get_gemini_response` (bot.py lines 95-100): the
session post either fails at transport level, times out, or yields a
response; `raise_for_status()` raises on any status ≥ 400; then the body
is parsed and the candidate text extracted. -/
def geminiTry (outcome : ApiOutcome) : Except PyErr Json :=
  match outcome with
  | .connectionError => .error .clientConnectionError
  | .timeout => .error .timeoutError
  | .response status body =>
    if 400 ≤ status then .error .clientResponseError
    else
      match body with
      | .malformed => .error .contentTypeError
      | .json result => extractText result

/-- `get_gemini_response` (bot.py lines 90-103). The `except Exception`
clause catches every exception of the `try` block, so the function is
total: it returns the extracted value on success and the canned
`apiErrorText` on any failure, and never propagates an exception. The
prompt `message_text` only enters the request body
(`geminiRequestBody`); the outcome of the call is the `outcome`
parameter. -/
def get_gemini_response (message_text : String) (outcome : ApiOutcome) : Json :=
  let _data : Json := geminiRequestBody message_text
  match geminiTry outcome with
  | .ok v => v
  | .error _ => .str apiErrorText

/-- The success body's extraction never reads an actual string-valued
`text` field: either the chain up to `parts[0]` raises, or `parts[0]` is
not a dict, or it is a dict with no `text` key (the "missing fields"
shape of a 2xx response). -/
def textFieldMissing (result : Json) : Prop :=
  match partsFirst result with
  | .error _ => True
  | .ok (.obj fields) => fields.lookup "text" = none
  | .ok _ => True

/-- The failure behaviours of the external API enumerated by the spec:
network failure, timeout, non-2xx status, malformed JSON, and a JSON
body with the expected fields missing. -/
inductive FailureBehaviour : ApiOutcome → Prop where
  | connectionError : FailureBehaviour .connectionError
  | timeout : FailureBehaviour .timeout
  | badStatus (status : Nat) (body : BodyResult) :
      400 ≤ status → FailureBehaviour (.response status body)
  | malformedJson (status : Nat) : FailureBehaviour (.response status .malformed)
  | missingFields (status : Nat) (result : Json) :
      textFieldMissing result → FailureBehaviour (.response status (.json result))

/-- The `users` table as the list of its `(user_id, message)` rows in
insertion order (the `timestamp` column is defaulted server-side and
read by no query, so it is omitted). -/
def save_user_request_rows (rows : List (Int × String)) (user_id : Int) (message : String) :
    List (Int × String) :=
  rows ++ [(user_id, message)]

/-- `get_users_count` (bot.py lines 80-87): `SELECT COUNT(DISTINCT user_id)`
over the `users` table; a storage failure is caught, logged, and turned
into the return value 0. -/
def get_users_count (rows : List (Int × String)) (storageFails : Bool) : Nat :=
  if storageFails then 0 else ((rows.map Prod.fst).dedup).length

/-- One observable effect of a handler, in the order performed: the
typing presence indicator, a successful `INSERT` into `users`, an error
logged by a `logger.error` call in the named function's `except` clause,
an invocation of `get_gemini_response` with its prompt, a threaded
`message.reply`, or a plain `message.answer` to the chat. -/
inductive Effect where
  | sendChatAction (chat_id : Int)
  | dbInsert (user_id : Int) (message : String)
  | logError (source : String)
  | apiCall (prompt : String)
  | reply (to_message_id : Int) (content : Json)
  | answer (chat_id : Int) (content : Json)

/-- The sender of an inbound message: `from_user.id` and
`from_user.first_name`, the latter `none` when Telegram supplies no
display name (a Python f-string renders the `None` as "None"). -/
structure User where
  id : Int
  first_name : Option String

/-- An inbound Telegram message: originating chat, its own message id
(the target of a threaded `reply`), sender, and text. -/
structure Msg where
  chat_id : Int
  message_id : Int
  from_user : User
  text : String

/-- The environment of one `handle_message` run: whether
`send_chat_action` raises, whether the `INSERT` inside
`save_user_request` raises, the Gemini call's outcome, and whether the
final `message.reply` send raises. -/
structure Outcomes where
  typingFails : Bool
  storageFails : Bool
  api : ApiOutcome
  replyFails : Bool

/-- The text answered by `handle_message`'s `except` clause
(bot.py line 135). -/
def handlerErrorText : String := "⚠️ Произошла ошибка при обработке вашего запроса"

/-- `save_user_request` (bot.py lines 69-78) as the effects it performs:
its own `try/except` swallows any storage exception, logging it, so the
function always returns normally — one `INSERT` on success, one logged
error on failure, never a propagated exception. -/
def save_user_request (user_id : Int) (message : String) (storageFails : Bool) : List Effect :=
  if storageFails then [.logError "save_user_request"] else [.dbInsert user_id message]

/-- `handle_message` (bot.py lines 126-135) as the ordered effects of one
run. The single `try` block performs, in order: `send_chat_action`,
`save_user_request`, `get_gemini_response`, `message.reply`; the first
exception escaping any of these jumps to the `except` clause, which logs
and answers a generic error. `send_chat_action` failing therefore skips
everything after it; `save_user_request` never raises; `message.reply`
failing also lands in the `except` clause. -/
def handle_message (msg : Msg) (o : Outcomes) : List Effect :=
  if o.typingFails then
    [.logError "handle_message", .answer msg.chat_id (.str handlerErrorText)]
  else
    [.sendChatAction msg.chat_id]
      ++ save_user_request msg.from_user.id msg.text o.storageFails
      ++ [.apiCall msg.text]
      ++ (if o.replyFails then
            [.logError "handle_message", .answer msg.chat_id (.str handlerErrorText)]
          else
            [.reply msg.message_id (get_gemini_response msg.text o.api)])

/-- Python `str.split()` with no separator: maximal runs of
non-whitespace characters, empty tokens discarded. -/
def splitWsAux : List Char → List Char → List String
  | [], acc => if acc.isEmpty then [] else [String.mk acc.reverse]
  | c :: cs, acc =>
    if c.isWhitespace then
      if acc.isEmpty then splitWsAux cs []
      else String.mk acc.reverse :: splitWsAux cs []
    else splitWsAux cs (c :: acc)

/-- Python `str.split()` on a string. -/
def pySplit (s : String) : List String :=
  splitWsAux s.toList []

/-- Python `str.lower()` restricted to the alphabets appearing in this
program's strings: ASCII letters and the Cyrillic А-Я/Ё range; every
other character is left unchanged. -/
def pyLowerChar (c : Char) : Char :=
  if 'A' ≤ c ∧ c ≤ 'Z' then Char.ofNat (c.toNat + 32)
  else if 'А' ≤ c ∧ c ≤ 'Я' then Char.ofNat (c.toNat + 32)
  else if c = 'Ё' then 'ё'
  else c

/-- Python `str.lower()` on a string, for this program's alphabets. -/
def pyLower (s : String) : String :=
  String.mk (s.toList.map pyLowerChar)

/-- Python `str(x)` on an optional string: the string itself, or the
rendering "None" of an absent value (as an f-string produces). -/
def pyStrOfOpt : Option String → String
  | some s => s
  | none => "None"

/-- The `/start` reply built at bot.py line 113:
`f"Добро пожаловать, {message.from_user.first_name}! Чем могу помочь?"`.
There is no fallback branch: the optional name is interpolated directly. -/
def startGreeting (first_name : Option String) : String :=
  "Добро пожаловать, " ++ pyStrOfOpt first_name ++ "! Чем могу помочь?"

/-- The static `/help` reply (bot.py lines 115-121). -/
def helpText : String :=
  "🤖 Я бот с интеграцией Gemini Pro\n\nДоступные команды:\n/start - Начало работы\n/help - Это сообщение\n/stats - Статистика пользователей"

/-- `handle_commands` (bot.py lines 106-123) as the effects of one run:
`message.text.split()[0].lower()` selects the command token (an empty
split makes `[0]` raise IndexError, caught by the handler's `except`,
which only logs); `/start` answers the interpolated greeting, `/help`
the static text, anything else falls through both branches and answers
nothing. -/
def handle_commands (msg : Msg) : List Effect :=
  match pySplit msg.text with
  | [] => [.logError "handle_commands"]
  | tok :: _ =>
    if pyLower tok = "/start" then
      [.answer msg.chat_id (.str (startGreeting msg.from_user.first_name))]
    else if pyLower tok = "/help" then
      [.answer msg.chat_id (.str helpText)]
    else []

/-- On a successful run (typing indicator sent, storage write succeeds,
reply send succeeds) `handle_message` performs exactly the four pipeline
steps in order, whatever the API outcome. -/
theorem handle_message_ok_trace (msg : Msg) (o : Outcomes)
    (ht : o.typingFails = false) (hs : o.storageFails = false) (hr : o.replyFails = false) :
    handle_message msg o =
      [Effect.sendChatAction msg.chat_id, Effect.dbInsert msg.from_user.id msg.text,
       Effect.apiCall msg.text, Effect.reply msg.message_id (get_gemini_response msg.text o.api)] := by
  simp [handle_message, save_user_request, ht, hs, hr]

/-- Any status of at least 400 makes `raise_for_status` throw, so the
`except` clause returns the canned error string. -/
theorem gemini_bad_status (status : Nat) (body : BodyResult) (h : 400 ≤ status) :
    geminiTry (.response status body) = .error .clientResponseError := by
  simp only [geminiTry]
  rw [if_pos h]

/-- A status below 400 passes `raise_for_status`, so the result is the
extraction over the parsed body. -/
theorem gemini_ok_status (status : Nat) (result : Json) (h : ¬ 400 ≤ status) :
    geminiTry (.response status (.json result)) = extractText result := by
  simp only [geminiTry]
  rw [if_neg h]

/-- When the try block errors, the canned string is returned. -/
theorem gemini_catch (t : String) (o : ApiOutcome) (e : PyErr)
    (h : geminiTry o = .error e) :
    get_gemini_response t o = .str apiErrorText := by
  simp [get_gemini_response, h]

/-- C2 counterexample: the timeout string is not distinct from the
transport-failure string — both are the single canned string of the one
catch-all `except` clause. -/
theorem timeout_string_equals_transport_string :
    get_gemini_response "What is 2+2?" .timeout
      = get_gemini_response "What is 2+2?" .connectionError ∧
    get_gemini_response "What is 2+2?" .timeout = .str apiErrorText :=
  ⟨rfl, rfl⟩

/-- C2 (amended): on timeout `get_gemini_response` returns the same
canned generic error string as on connection failure and on a non-2xx
status; there is no distinct "request took too long" string. -/
theorem timeout_returns_generic_error (t : String) (status : Nat) (body : BodyResult)
    (h : 400 ≤ status) :
    get_gemini_response t .timeout = .str apiErrorText ∧
    get_gemini_response t .connectionError = .str apiErrorText ∧
    get_gemini_response t (.response status body) = .str apiErrorText :=
  ⟨rfl, rfl, gemini_catch t _ _ (gemini_bad_status status body h)⟩

/-- C2 witness: the amended statement at a concrete prompt and a
concrete 500 response. -/
theorem timeout_returns_generic_error_witness :
    400 ≤ 500 ∧
    get_gemini_response "ping" .timeout = .str apiErrorText ∧
    get_gemini_response "ping" .connectionError = .str apiErrorText ∧
    get_gemini_response "ping" (.response 500 .malformed) = .str apiErrorText :=
  ⟨by decide, timeout_returns_generic_error "ping" 500 .malformed (by decide)⟩

/-- C3: for every prompt (the empty string included) and every failure
behaviour of the external API — network failure, timeout, non-2xx
status, malformed JSON, missing fields — `get_gemini_response` returns a
string; the function is total, so no exception reaches the caller. -/
theorem getReply_failure_returns_string (t : String) (o : ApiOutcome)
    (h : FailureBehaviour o) :
    ∃ s : String, get_gemini_response t o = .str s := by
  cases h with
  | connectionError => exact ⟨apiErrorText, rfl⟩
  | timeout => exact ⟨apiErrorText, rfl⟩
  | badStatus status body hs =>
    exact ⟨apiErrorText, gemini_catch t _ _ (gemini_bad_status status body hs)⟩
  | malformedJson status =>
    by_cases hs : 400 ≤ status
    · exact ⟨apiErrorText, gemini_catch t _ _ (gemini_bad_status status .malformed hs)⟩
    · refine ⟨apiErrorText, gemini_catch t _ PyErr.contentTypeError ?_⟩
      simp only [geminiTry]
      rw [if_neg hs]
  | missingFields status result hm =>
    by_cases hs : 400 ≤ status
    · exact ⟨apiErrorText, gemini_catch t _ _ (gemini_bad_status status (.json result) hs)⟩
    · unfold textFieldMissing at hm
      rcases hp : partsFirst result with e | p0 <;> rw [hp] at hm
      · exact ⟨apiErrorText, gemini_catch t _ _ (by rw [gemini_ok_status status result hs, extractText, hp])⟩
      · cases p0 with
        | obj fields =>
          simp only at hm
          refine ⟨noAnswerText, ?_⟩
          have hx : extractText result = .ok (.str noAnswerText) := by
            rw [extractText, hp]
            simp [Json.getD, hm]
          simp [get_gemini_response, gemini_ok_status status result hs, hx]
        | null =>
          exact ⟨apiErrorText, gemini_catch t _ _ (by rw [gemini_ok_status status result hs, extractText, hp]; rfl)⟩
        | bool b =>
          exact ⟨apiErrorText, gemini_catch t _ _ (by rw [gemini_ok_status status result hs, extractText, hp]; rfl)⟩
        | num n =>
          exact ⟨apiErrorText, gemini_catch t _ _ (by rw [gemini_ok_status status result hs, extractText, hp]; rfl)⟩
        | str s =>
          exact ⟨apiErrorText, gemini_catch t _ _ (by rw [gemini_ok_status status result hs, extractText, hp]; rfl)⟩
        | arr xs =>
          exact ⟨apiErrorText, gemini_catch t _ _ (by rw [gemini_ok_status status result hs, extractText, hp]; rfl)⟩

/-- C3 witness: the timeout behaviour with the empty prompt. -/
theorem getReply_failure_returns_string_witness :
    FailureBehaviour ApiOutcome.timeout ∧
    ∃ s : String, get_gemini_response "" ApiOutcome.timeout = .str s :=
  ⟨FailureBehaviour.timeout, getReply_failure_returns_string "" _ FailureBehaviour.timeout⟩

/-- C5 counterexample: a 2xx JSON response whose `candidates` list is
present but empty makes `[0]` raise IndexError, which the catch-all
turns into the generic error string — not the canned "no answer"
string. -/
theorem empty_candidates_generic_error :
    get_gemini_response "x" (.response 200 (.json (.obj [("candidates", Json.arr [])])))
      = .str apiErrorText ∧
    apiErrorText ≠ noAnswerText :=
  ⟨rfl, by decide⟩

/-- C5 (amended): on a 2xx JSON object response, an absent `candidates`
key yields the canned "no answer" string, while a present-but-empty
`candidates` list raises IndexError internally and yields the generic
error string instead; neither case propagates an exception. -/
theorem candidates_absent_vs_empty (t : String) (status : Nat)
    (fields : List (String × Json)) (hst : status < 400) :
    (fields.lookup "candidates" = none →
      get_gemini_response t (.response status (.json (.obj fields))) = .str noAnswerText)
  ∧ (fields.lookup "candidates" = some (Json.arr []) →
      get_gemini_response t (.response status (.json (.obj fields))) = .str apiErrorText) := by
  have hnot : ¬ 400 ≤ status := Nat.not_le.mpr hst
  constructor <;> intro h
  · have hx : extractText (.obj fields) = .ok (.str noAnswerText) := by
      rw [extractText, partsFirst]
      simp [Json.getD, Json.index0, h]
    simp [get_gemini_response, gemini_ok_status status (.obj fields) hnot, hx]
  · have hx : extractText (.obj fields) = .error .indexError := by
      rw [extractText, partsFirst]
      simp [Json.getD, Json.index0, h]
    exact gemini_catch t _ _ (by rw [gemini_ok_status status (.obj fields) hnot, hx])

/-- C5 witness: the amended statement at two concrete 200-status
bodies, one with no `candidates` key and one with `candidates: []`. -/
theorem candidates_absent_vs_empty_witness :
    (200 : Nat) < 400 ∧
    get_gemini_response "q" (.response 200 (.json (.obj [("model", Json.str "g")])))
      = .str noAnswerText ∧
    get_gemini_response "q" (.response 200 (.json (.obj [("candidates", Json.arr []), ("note", Json.null)])))
      = .str apiErrorText :=
  ⟨by decide,
   (candidates_absent_vs_empty "q" 200 [("model", Json.str "g")] (by decide)).1 rfl,
   (candidates_absent_vs_empty "q" 200 [("candidates", Json.arr []), ("note", Json.null)] (by decide)).2 rfl⟩

/-- C8: after `save_user_request` appends a row, the distinct-user count
grows by exactly one when the user id was not yet in the table, and is
unchanged when it was, whatever the message text. -/
theorem distinct_user_count_increment (rows : List (Int × String)) (uid : Int) (text : String) :
    (uid ∉ rows.map Prod.fst →
      get_users_count (save_user_request_rows rows uid text) false
        = get_users_count rows false + 1)
  ∧ (uid ∈ rows.map Prod.fst →
      get_users_count (save_user_request_rows rows uid text) false
        = get_users_count rows false) := by
  have key : ∀ l : List Int, l.dedup.length = l.toFinset.card :=
    fun l => (List.card_toFinset l).symm
  have happ : ((rows ++ [(uid, text)]).map Prod.fst).toFinset
      = insert uid (rows.map Prod.fst).toFinset := by
    rw [List.map_append, List.toFinset_append, Finset.union_comm]
    simp [← Finset.insert_eq]
  constructor <;> intro h <;>
    simp only [get_users_count, save_user_request_rows, if_neg, Bool.false_eq_true,
      ite_false, key, happ]
  · rw [Finset.card_insert_of_not_mem (by simpa using h)]
  · rw [Finset.card_insert_of_mem (by simpa using h)]

/-- C8 witness: a fresh user id increments the count; a repeat of an
already-seen id (with a different text) does not. -/
theorem distinct_user_count_increment_witness :
    ((5 : Int) ∉ ([] : List (Int × String)).map Prod.fst ∧
      get_users_count (save_user_request_rows [] 5 "hi") false
        = get_users_count ([] : List (Int × String)) false + 1) ∧
    ((5 : Int) ∈ [((5 : Int), "a")].map Prod.fst ∧
      get_users_count (save_user_request_rows [((5 : Int), "a")] 5 "hi") false
        = get_users_count [((5 : Int), "a")] false) :=
  ⟨⟨by decide, (distinct_user_count_increment [] 5 "hi").1 (by decide)⟩,
   ⟨by decide, (distinct_user_count_increment [((5 : Int), "a")] 5 "hi").2 (by decide)⟩⟩

/-- C10: `save_user_request` validates nothing and checks for no
duplicate: every successful call appends exactly one row, for any user
id and any text (the empty string included), and two identical calls
leave two identical rows. -/
theorem recordMessage_unconditional_append (rows : List (Int × String))
    (user_id : Int) (message : String) :
    (save_user_request_rows rows user_id message).length = rows.length + 1
  ∧ save_user_request_rows (save_user_request_rows rows user_id message) user_id message
      = rows ++ [(user_id, message), (user_id, message)]
  ∧ (save_user_request_rows rows user_id "").length = rows.length + 1 := by
  refine ⟨?_, ?_, ?_⟩ <;> simp [save_user_request_rows]

/-- C9: a text message processed without handler failure produces
exactly this effect sequence: one typing indicator, exactly one row
`(user_id, text)` inserted, exactly one `get_gemini_response` call whose
prompt is exactly the inbound text, and one threaded reply to the
inbound message whose content is exactly the client's return value (no
plain `answer` is sent). -/
theorem success_pipeline_trace (msg : Msg) (o : Outcomes)
    (ht : o.typingFails = false) (hs : o.storageFails = false) (hr : o.replyFails = false) :
    handle_message msg o =
      [Effect.sendChatAction msg.chat_id, Effect.dbInsert msg.from_user.id msg.text,
       Effect.apiCall msg.text, Effect.reply msg.message_id (get_gemini_response msg.text o.api)] :=
  handle_message_ok_trace msg o ht hs hr

/-- C9 witness: the pipeline trace for the inbound text "What is 2+2?"
with every step succeeding. -/
theorem success_pipeline_trace_witness :
    handle_message (Msg.mk 10 20 (User.mk 7 (some "Ann")) "What is 2+2?")
        (Outcomes.mk false false (.response 200 (.json (.obj [("candidates", Json.arr [.obj [("content", Json.obj [("parts", Json.arr [.obj [("text", Json.str "4")]])])]])]))) false)
      = [Effect.sendChatAction 10, Effect.dbInsert 7 "What is 2+2?",
         Effect.apiCall "What is 2+2?", Effect.reply 20 (Json.str "4")] := by
  have h := success_pipeline_trace
    (Msg.mk 10 20 (User.mk 7 (some "Ann")) "What is 2+2?")
    (Outcomes.mk false false (.response 200 (.json (.obj [("candidates", Json.arr [.obj [("content", Json.obj [("parts", Json.arr [.obj [("text", Json.str "4")]])])]])]))) false)
    rfl rfl rfl
  rw [h]
  rfl

/-- C1 counterexample: the inbound text "Задать вопрос" is handled like
any other text — the handler persists it, invokes `get_gemini_response`
with it, and relays the API result; no static prompt-for-input answer is
produced. -/
theorem trigger_phrase_goes_to_api :
    handle_message (Msg.mk 1 2 (User.mk 3 (some "Ann")) "Задать вопрос")
        (Outcomes.mk false false .timeout false)
      = [Effect.sendChatAction 1, Effect.dbInsert 3 "Задать вопрос",
         Effect.apiCall "Задать вопрос", Effect.reply 2 (.str apiErrorText)] ∧
    Effect.apiCall "Задать вопрос" ∈ handle_message (Msg.mk 1 2 (User.mk 3 (some "Ann")) "Задать вопрос")
        (Outcomes.mk false false .timeout false) :=
  ⟨rfl, List.Mem.tail _ (List.Mem.tail _ (List.Mem.head _))⟩

set_option linter.unusedVariables false in
/-- C1 (amended): `handle_message` in bot.py has no reserved
trigger-phrase branch: a message whose text equals "Задать вопрос"
(case-insensitively) goes through the full pipeline — it is persisted,
`get_gemini_response` is invoked with it, and its return value is sent
as the threaded reply. -/
theorem no_trigger_phrase_shortcut (msg : Msg) (o : Outcomes)
    (htrig : msg.text = "Задать вопрос" ∨ pyLower msg.text = "задать вопрос")
    (ht : o.typingFails = false) (hs : o.storageFails = false) (hr : o.replyFails = false) :
    handle_message msg o =
      [Effect.sendChatAction msg.chat_id, Effect.dbInsert msg.from_user.id msg.text,
       Effect.apiCall msg.text, Effect.reply msg.message_id (get_gemini_response msg.text o.api)] :=
  handle_message_ok_trace msg o ht hs hr

/-- C1 witness: the amended statement at the literal trigger phrase with
a successfully answering API. -/
theorem no_trigger_phrase_shortcut_witness :
    pyLower "Задать вопрос" = "задать вопрос" ∧
    handle_message (Msg.mk 4 5 (User.mk 6 none) "Задать вопрос")
        (Outcomes.mk false false .connectionError false)
      = [Effect.sendChatAction 4, Effect.dbInsert 6 "Задать вопрос",
         Effect.apiCall "Задать вопрос",
         Effect.reply 5 (get_gemini_response "Задать вопрос" .connectionError)] :=
  ⟨by decide,
   no_trigger_phrase_shortcut (Msg.mk 4 5 (User.mk 6 none) "Задать вопрос")
     (Outcomes.mk false false .connectionError false) (Or.inr (by decide)) rfl rfl rfl⟩

/-- C4 counterexample: when `send_chat_action` raises, the single
`try/except` of `handle_message` jumps straight to the error answer —
the message is not persisted, `get_gemini_response` is not called, and
no threaded reply is sent. -/
theorem typing_failure_skips_pipeline :
    handle_message (Msg.mk 5 6 (User.mk 9 (some "Bob")) "hello")
        (Outcomes.mk true false .timeout false)
      = [Effect.logError "handle_message", Effect.answer 5 (.str handlerErrorText)] ∧
    Effect.dbInsert 9 "hello" ∉ handle_message (Msg.mk 5 6 (User.mk 9 (some "Bob")) "hello")
        (Outcomes.mk true false .timeout false) ∧
    Effect.apiCall "hello" ∉ handle_message (Msg.mk 5 6 (User.mk 9 (some "Bob")) "hello")
        (Outcomes.mk true false .timeout false) ∧
    Effect.reply 6 (get_gemini_response "hello" .timeout)
      ∉ handle_message (Msg.mk 5 6 (User.mk 9 (some "Bob")) "hello")
        (Outcomes.mk true false .timeout false) := by
  refine ⟨rfl, ?_, ?_, ?_⟩ <;> simp [handle_message, handlerErrorText]

/-- C4 (amended): a failing typing indicator is caught by the handler's
outer `except` clause, which logs and answers the generic error text; it
skips the persist, generate and reply steps rather than performing
them. -/
theorem typing_failure_aborts_to_error_answer (msg : Msg) (o : Outcomes)
    (ht : o.typingFails = true) :
    handle_message msg o =
      [Effect.logError "handle_message", Effect.answer msg.chat_id (.str handlerErrorText)] := by
  simp [handle_message, ht]

/-- C4 witness: the amended statement at a concrete message. -/
theorem typing_failure_aborts_to_error_answer_witness :
    handle_message (Msg.mk 11 12 (User.mk 13 none) "yo")
        (Outcomes.mk true false .connectionError false)
      = [Effect.logError "handle_message", Effect.answer 11 (.str handlerErrorText)] :=
  typing_failure_aborts_to_error_answer (Msg.mk 11 12 (User.mk 13 none) "yo")
    (Outcomes.mk true false .connectionError false) rfl

/-- C6 counterexample: for a `/start` sender with no display name the
reply interpolates the absent value's rendering "None" — it is
character-for-character the reply a user literally named "None" would
get, so no generic fallback noun is substituted. -/
theorem start_no_name_interpolates_none :
    handle_commands (Msg.mk 40 41 (User.mk 42 none) "/start")
      = [Effect.answer 40 (.str "Добро пожаловать, None! Чем могу помочь?")] ∧
    handle_commands (Msg.mk 40 41 (User.mk 42 none) "/start")
      = handle_commands (Msg.mk 40 41 (User.mk 42 (some "None")) "/start") :=
  ⟨rfl, rfl⟩

/-- C6 (amended): the `/start` reply always interpolates
`from_user.first_name` directly into the fixed greeting: with a display
name the reply contains that name; with no display name it contains the
rendering "None" of the absent value, not a generic fallback noun. -/
theorem start_greeting_interpolation (msg : Msg) (n : String) :
    (msg.text = "/start" →
      handle_commands msg
        = [Effect.answer msg.chat_id (.str (startGreeting msg.from_user.first_name))])
  ∧ (msg.from_user.first_name = some n →
      startGreeting msg.from_user.first_name
        = "Добро пожаловать, " ++ n ++ "! Чем могу помочь?")
  ∧ (msg.from_user.first_name = none →
      startGreeting msg.from_user.first_name
        = "Добро пожаловать, " ++ "None" ++ "! Чем могу помочь?") := by
  refine ⟨?_, ?_, ?_⟩
  · intro h
    have h1 : pySplit "/start" = ["/start"] := by decide
    have h2 : pyLower "/start" = "/start" := by decide
    simp [handle_commands, h, h1, h2]
  · intro h
    simp [startGreeting, pyStrOfOpt, h]
  · intro h
    simp [startGreeting, pyStrOfOpt, h]

/-- C6 witness: the amended statement at a sender named "Ann" and at a
sender with no display name. -/
theorem start_greeting_interpolation_witness :
    handle_commands (Msg.mk 30 31 (User.mk 32 (some "Ann")) "/start")
      = [Effect.answer 30 (.str (startGreeting (some "Ann")))] ∧
    startGreeting (some "Ann") = "Добро пожаловать, " ++ "Ann" ++ "! Чем могу помочь?" ∧
    startGreeting none = "Добро пожаловать, " ++ "None" ++ "! Чем могу помочь?" :=
  ⟨(start_greeting_interpolation (Msg.mk 30 31 (User.mk 32 (some "Ann")) "/start") "Ann").1 rfl,
   (start_greeting_interpolation (Msg.mk 30 31 (User.mk 32 (some "Ann")) "/start") "Ann").2.1 rfl,
   (start_greeting_interpolation (Msg.mk 33 34 (User.mk 35 none) "/start") "x").2.2 rfl⟩

/-- C7: a failing `INSERT` inside `save_user_request` is logged and
swallowed — the function returns normally with only a logged error — and
`handle_message` then still invokes `get_gemini_response` on the inbound
text and sends the user a reply attempt (the threaded reply, or the
generic error answer if that send fails too). -/
theorem storage_failure_swallowed_handler_proceeds (user_id : Int) (text : String)
    (msg : Msg) (o : Outcomes) (hs : o.storageFails = true) (ht : o.typingFails = false) :
    save_user_request user_id text true = [Effect.logError "save_user_request"] ∧
    Effect.logError "save_user_request" ∈ handle_message msg o ∧
    Effect.apiCall msg.text ∈ handle_message msg o ∧
    (Effect.reply msg.message_id (get_gemini_response msg.text o.api) ∈ handle_message msg o
      ∨ Effect.answer msg.chat_id (.str handlerErrorText) ∈ handle_message msg o) := by
  refine ⟨rfl, ?_, ?_, ?_⟩ <;>
    cases hr : o.replyFails <;> simp [handle_message, save_user_request, ht, hs, hr]

/-- C7 witness: a storage failure at a concrete message still leads to
the API call and a threaded reply attempt. -/
theorem storage_failure_swallowed_handler_proceeds_witness :
    save_user_request 50 "hola" true = [Effect.logError "save_user_request"] ∧
    Effect.apiCall "hola" ∈ handle_message (Msg.mk 51 52 (User.mk 50 none) "hola")
        (Outcomes.mk false true .connectionError false) :=
  ⟨(storage_failure_swallowed_handler_proceeds 50 "hola"
      (Msg.mk 51 52 (User.mk 50 none) "hola")
      (Outcomes.mk false true .connectionError false) rfl rfl).1,
   (storage_failure_swallowed_handler_proceeds 50 "hola"
      (Msg.mk 51 52 (User.mk 50 none) "hola")
      (Outcomes.mk false true .connectionError false) rfl rfl).2.2.1⟩

end GeminiBot
